import Mathlib

/-!
Verification development for the newrelic-pixie-integration sources,
covering internal/worker/worker.go (the per-integration supervisor loop)
and internal/adapter/jvm.go (the jvm row converter).

The worker loop is embedded as a pure trace semantics: one cycle of the
loop body (worker.go lines 74-121) is a function from the cycle's
environment (the outcomes chosen by the external query engine and the
scheduler race) to the list of observable events it performs, and one
iteration of the loop with its crash barrier (lines 62-70, 74-81) is a
step function on the loop's arguments and the streaming handler's state.
-/

namespace Worker

/-- Nanoseconds per second; all durations in the model are integer
nanoseconds, mirroring Go's time.Duration. -/
def nsPerSec : Int := 1000000000

/-- The arguments of worker.run (worker.go line 62): integration name,
script text and collection interval in seconds. -/
structure RunArgs where
  name : String
  script : String
  collectIntervalSec : Int
deriving DecidableEq

/-- worker.go line 72: collectInterval := time.Duration(collectIntervalSec) * time.Second. -/
def collectInterval (a : RunArgs) : Int := a.collectIntervalSec * nsPerSec

/-- worker.go line 73: maxExecutionTime := time.Duration(collectIntervalSec - 1) * time.Second. -/
def maxExecutionTime (a : RunArgs) : Int := (a.collectIntervalSec - 1) * nsPerSec

/-- Observable events of one worker goroutine family; α is the type of
accumulated telemetry entities (metrics or spans payloads). -/
inductive Event (α : Type) where
  | logDebug (msg : String)
  | logInfo (msg : String)
  | logWarn (msg : String)
  | cancelDerived
  | send (batch : List α)
  | closeHandle
  | sleepNs (d : Int)
  | wgDone
deriving DecidableEq

/-- Modelled from the spec: the streaming handler (the Result Accumulator
of spec section 4.3) is repository code absent from the sources here; per
the spec it owns a buffer of telemetry entities that converted rows are
appended to. -/
structure HandlerState (α : Type) where
  buf : List α
deriving DecidableEq

/-- Modelled from the spec: h.send(exporter) flushes the accumulator,
"calling it transmits the full batch via the exporter's send capability
for that kind and returns the number of top-level entities sent", and at
stream end the buffer "is handed to the exporter and cleared". -/
def sendH {α : Type} (st : HandlerState α) : Nat × List α × HandlerState α :=
  (st.buf.length, st.buf, ⟨[]⟩)

/-- Outcome of converting one streamed row: the entities the Row
Converter produced, or its error. -/
abbrev RowOutcome (α : Type) := Except String (List α)

/-- Modelled from the spec: the Result Dispatcher's per-row callback
appends converted entities to the accumulator and, on a conversion
error, propagates the error to the streaming layer immediately,
abandoning the remainder of the stream. -/
def handleRows {α : Type} (st : HandlerState α) : List (RowOutcome α) → HandlerState α × Option String
  | [] => (st, none)
  | (Except.ok es) :: rest => handleRows ⟨st.buf ++ es⟩ rest
  | (Except.error e) :: _ => (st, some e)

/-- The first conversion error among the streamed rows, if any. -/
def rowsConvErr {α : Type} : List (RowOutcome α) → Option String
  | [] => none
  | (Except.ok _) :: rest => rowsConvErr rest
  | (Except.error e) :: _ => some e

/-- Entities delivered to the accumulator: the converted rows up to (and
excluding) the first erroring row. -/
def deliveredEntities {α : Type} : List (RowOutcome α) → List α
  | [] => []
  | (Except.ok es) :: rest => es ++ deliveredEntities rest
  | (Except.error _) :: _ => []

/-- Environment of the goroutine spawned at worker.go line 85: whether
ExecuteScript fails (with a non-EOF error), whether it yields a non-nil
result handle, the conversion outcomes of the rows the engine streams,
and whether resultSet.Stream() itself fails after delivering them. -/
structure GoEnv (α : Type) where
  execErr : Bool
  handleObtained : Bool
  rows : List (RowOutcome α)
  streamTransportErr : Bool

/-- The body of the goroutine at worker.go lines 85-100, as a function of
its environment and the handler state: its events, the updated handler
state, and the single message it writes to ch (none encodes the nil
written at line 99). -/
def goBody {α : Type} (env : GoEnv α) (st : HandlerState α) : List (Event α) × HandlerState α × Option String :=
  if env.execErr then
    ([], st, some "error while executing Pixie script")
  else
    match handleRows st env.rows with
    | (st', some e) => ([], st', some ("pixie streaming error: " ++ e))
    | (st', none) =>
      if env.streamTransportErr then
        ([], st', some "pixie streaming error")
      else
        match sendH st' with
        | (_, batch, st'') =>
          ([Event.send batch, Event.logDebug "done streaming results"], st'', none)

/-- A run is clean when ExecuteScript succeeds, every row converts, and
streaming ends without a transport error — exactly the path on which
worker.go line 97 calls h.send. -/
def runClean {α : Type} (env : GoEnv α) : Bool :=
  !env.execErr && (rowsConvErr env.rows).isNone && !env.streamTransportErr

/-- Environment of one iteration of the for loop at worker.go lines
74-121: the goroutine's environment, which arm of the select at lines
101-111 wins (finishedInTime is false when the time.After arm fires
first), the clock readings at lines 82 and 115, and the state of the
enclosing context ctx. -/
structure CycleEnv (α : Type) where
  goEnv : GoEnv α
  finishedInTime : Bool
  startNs : Int
  nowNs : Int
  outerCancelled : Bool

/-- Result of one cycle: its event trace, the handler state after it,
whether the enclosing context ctx ended up cancelled, and whether the
derived context pixieCtx (worker.go line 84) ended up cancelled. -/
structure CycleResult (α : Type) where
  events : List (Event α)
  st : HandlerState α
  outerCancelledAfter : Bool
  derivedCancelled : Bool
deriving DecidableEq

/-- The select at worker.go lines 101-111: log the delivered outcome, or
— when the deadline arm wins — call cancelFn on the derived context and
log the timeout. -/
def selectEvents {α : Type} (env : CycleEnv α) (chMsg : Option String) : List (Event α) :=
  if env.finishedInTime then
    match chMsg with
    | none => [Event.logDebug "execution completed successfully"]
    | some e => [Event.logWarn ("execution failed: " ++ e)]
  else
    [Event.cancelDerived, Event.logWarn "execution out of time"]

/-- The outer resultSet variable of worker.go line 75 as it stands when
line 112 tests it. Line 87 reads resultSet, err := w.vz.ExecuteScript(...)
inside the goroutine's function literal; that short variable declaration
creates a new resultSet local to the goroutine rather than assigning the
outer one, so the outer variable keeps its nil zero value in every
cycle, whatever ExecuteScript returned. -/
def outerResultSetAfter {α : Type} (_env : CycleEnv α) : Option Unit := none

/-- worker.go lines 112-114: Close is called when the outer resultSet is
non-nil. -/
def closeEvents {α : Type} (env : CycleEnv α) : List (Event α) :=
  match outerResultSetAfter env with
  | some _ => [Event.closeHandle]
  | none => []

/-- worker.go lines 115-120: sleepTime := start.Add(collectInterval).Sub(time.Now());
sleep it when positive, otherwise log that the sleep is skipped. -/
def sleepEvents {α : Type} (args : RunArgs) (startNs nowNs : Int) : List (Event α) :=
  if 0 < startNs + collectInterval args - nowNs then
    [Event.sleepNs (startNs + collectInterval args - nowNs)]
  else
    [Event.logWarn "skipping the sleep"]

/-- One iteration of the default branch of the loop (worker.go lines
81-120): spawn the goroutine, race it against the deadline, test the
outer result handle, then sleep or skip. The goroutine's events are
included in the cycle's trace whichever arm of the select wins; cancelFn
cancels only the derived pixieCtx. -/
def runCycle {α : Type} (args : RunArgs) (st : HandlerState α) (env : CycleEnv α) : CycleResult α :=
  match goBody env.goEnv st with
  | (goEvts, st', chMsg) =>
    { events := goEvts ++ selectEvents env chMsg ++ closeEvents env
        ++ sleepEvents args env.startNs env.nowNs
      st := st'
      outerCancelledAfter := env.outerCancelled
      derivedCancelled := !env.finishedInTime }

/-- Go goroutines relevant to worker.run: the goroutine run itself
executes on (where the deferred recover of lines 63-70 is installed) and
the goroutine spawned at line 85 (inside which ExecuteScript,
resultSet.Stream() and hence every HandleRecord row conversion run). -/
inductive Goroutine where
  | supervisor
  | streamTask
deriving DecidableEq

/-- An unexpected fault (panic): the goroutine it is raised on and the
value passed to panic. -/
structure Fault where
  gid : Goroutine
  msg : String
deriving DecidableEq

/-- The deferred recover of worker.go lines 63-70 runs on the goroutine
that called run: the supervisor goroutine. -/
def recoverGid : Goroutine := Goroutine.supervisor

/-- A fault raised during row conversion: HandleRecord is invoked from
resultSet.Stream() at line 93, inside the goroutine spawned at line 85,
so the fault is raised on the stream-task goroutine. -/
def conversionFault (msg : String) : Fault := ⟨Goroutine.streamTask, msg⟩

/-- Input of one iteration of run's loop: the ctx.Done arm of the select
at line 77 fires, or a cycle runs normally, or a fault is raised. -/
inductive StepInput (α : Type) where
  | cancelled
  | cycle (env : CycleEnv α)
  | fault (f : Fault)

/-- Outcome of one iteration: return after wg.Done (lines 78-80);
continue looping with the same args and the updated handler state; the
deferred recover intercepts a fault and re-enters run (lines 64-68) with
the given arguments and handler; or the Go runtime terminates the whole
process because a panic escaped on a goroutine with no recover. -/
inductive StepOutput (α : Type) where
  | exit (events : List (Event α))
  | next (events : List (Event α)) (st : HandlerState α)
  | restart (args : RunArgs) (st : HandlerState α) (events : List (Event α))
  | processCrash
deriving DecidableEq

/-- One iteration of worker.run's loop together with its crash barrier.
Only a fault raised on the supervisor goroutine reaches the deferred
recover; the recursion at line 68 passes ctx, wg, name, script,
collectIntervalSec and h unchanged. -/
def runStep {α : Type} (args : RunArgs) (st : HandlerState α) : StepInput α → StepOutput α
  | StepInput.cancelled => StepOutput.exit [Event.logInfo "leaving worker", Event.wgDone]
  | StepInput.cycle env =>
    match runCycle args st env with
    | r => StepOutput.next r.events r.st
  | StepInput.fault f =>
    if f.gid = recoverGid then
      StepOutput.restart args st
        [Event.logWarn f.msg, Event.logInfo "sleep 10 seconds to be recovered",
         Event.sleepNs (10 * nsPerSec)]
    else
      StepOutput.processCrash

/-- The run arguments the crash barrier re-enters run with after one
intercepted fault. -/
def restartArgs {α : Type} (args : RunArgs) (st : HandlerState α) : RunArgs :=
  match runStep args st (StepInput.fault ⟨recoverGid, "fault"⟩) with
  | StepOutput.restart a _ _ => a
  | _ => args

/-- The run arguments after n successive intercepted faults. -/
def argsAfterRestarts {α : Type} (st : HandlerState α) (args : RunArgs) : Nat → RunArgs
  | 0 => args
  | n + 1 => argsAfterRestarts st (restartArgs args st) n

/-- The batches handed to the exporter in a trace, in order. -/
def sentBatches {α : Type} : List (Event α) → List (List α)
  | [] => []
  | Event.send b :: rest => b :: sentBatches rest
  | _ :: rest => sentBatches rest

/-- Number of exporter-send invocations in a trace. -/
def sendCount {α : Type} (evts : List (Event α)) : Nat :=
  (sentBatches evts).length

theorem handleRows_snd {α : Type} (st : HandlerState α) (rows : List (RowOutcome α)) :
    (handleRows st rows).2 = rowsConvErr rows := by
  induction rows generalizing st with
  | nil => rfl
  | cons r rest ih =>
    cases r with
    | ok es => simpa [handleRows, rowsConvErr] using ih ⟨st.buf ++ es⟩
    | error e => rfl

theorem handleRows_fst {α : Type} (st : HandlerState α) (rows : List (RowOutcome α)) :
    (handleRows st rows).1.buf = st.buf ++ deliveredEntities rows := by
  induction rows generalizing st with
  | nil => simp [handleRows, deliveredEntities]
  | cons r rest ih =>
    cases r with
    | ok es => simp [handleRows, deliveredEntities, ih ⟨st.buf ++ es⟩]
    | error e => simp [handleRows, deliveredEntities]

/-- Characterization of the goroutine body by the run's environment. -/
theorem goBody_char {α : Type} (env : GoEnv α) (st : HandlerState α) :
    goBody env st =
      (if env.execErr then ([], st, some "error while executing Pixie script")
       else
        match rowsConvErr env.rows with
        | some e =>
          ([], ⟨st.buf ++ deliveredEntities env.rows⟩, some ("pixie streaming error: " ++ e))
        | none =>
          if env.streamTransportErr then
            ([], ⟨st.buf ++ deliveredEntities env.rows⟩, some "pixie streaming error")
          else
            ([Event.send (st.buf ++ deliveredEntities env.rows),
              Event.logDebug "done streaming results"], ⟨[]⟩, none)) := by
  unfold goBody
  by_cases hexec : env.execErr
  · simp [hexec]
  · simp only [hexec, Bool.false_eq_true, if_false]
    rcases hh : handleRows st env.rows with ⟨st', msg⟩
    have hmsg : msg = rowsConvErr env.rows := by
      rw [← handleRows_snd st env.rows, hh]
    have hbuf : st' = ⟨st.buf ++ deliveredEntities env.rows⟩ := by
      cases st' with
      | mk b =>
        have := handleRows_fst st env.rows
        rw [hh] at this
        simpa using this
    subst hbuf
    cases msg with
    | none => rw [← hmsg]; rfl
    | some e => rw [← hmsg]

theorem sentBatches_append {α : Type} (a b : List (Event α)) :
    sentBatches (a ++ b) = sentBatches a ++ sentBatches b := by
  induction a with
  | nil => rfl
  | cons e rest ih => cases e <;> simp [sentBatches, ih]

theorem sentBatches_selectEvents {α : Type} (env : CycleEnv α) (msg : Option String) :
    sentBatches (selectEvents env msg) = [] := by
  unfold selectEvents
  cases env.finishedInTime <;> cases msg <;> rfl

theorem sentBatches_closeEvents {α : Type} (env : CycleEnv α) :
    sentBatches (closeEvents env) = [] := rfl

theorem sentBatches_sleepEvents {α : Type} (args : RunArgs) (startNs nowNs : Int) :
    sentBatches (sleepEvents args startNs nowNs : List (Event α)) = [] := by
  unfold sleepEvents
  split <;> rfl

/-- The exporter batches of one cycle: exactly the full accumulated
buffer once when the run is clean, and none otherwise. -/
theorem sentBatches_runCycle {α : Type} (args : RunArgs) (st : HandlerState α) (env : CycleEnv α) :
    sentBatches (runCycle args st env).events =
      (if runClean env.goEnv then [st.buf ++ deliveredEntities env.goEnv.rows] else []) := by
  rcases hg : goBody env.goEnv st with ⟨goEvts, st', chMsg⟩
  rw [goBody_char] at hg
  unfold runCycle runClean
  rw [goBody_char]
  by_cases hexec : env.goEnv.execErr
  · simp [hexec, sentBatches_append, sentBatches_selectEvents, sentBatches_closeEvents,
      sentBatches_sleepEvents, sentBatches]
  · simp only [hexec, Bool.false_eq_true, if_false, Bool.not_false, Bool.true_and]
    cases hc : rowsConvErr env.goEnv.rows with
    | some e =>
      simp [sentBatches_append, sentBatches_selectEvents, sentBatches_closeEvents,
        sentBatches_sleepEvents, sentBatches, hc]
    | none =>
      by_cases hs : env.goEnv.streamTransportErr <;>
        simp [sentBatches_append, sentBatches_selectEvents, sentBatches_closeEvents,
          sentBatches_sleepEvents, sentBatches, hc, hs]

/-- The handler's buffer after one cycle: cleared by the flush of a clean
run, untouched when ExecuteScript failed, and otherwise extended by the
entities delivered before the stream ended. -/
theorem runCycle_st {α : Type} (args : RunArgs) (st : HandlerState α) (env : CycleEnv α) :
    (runCycle args st env).st =
      (if runClean env.goEnv then (⟨[]⟩ : HandlerState α)
       else if env.goEnv.execErr then st
       else ⟨st.buf ++ deliveredEntities env.goEnv.rows⟩) := by
  unfold runCycle runClean
  rw [goBody_char]
  by_cases hexec : env.goEnv.execErr
  · simp [hexec]
  · simp only [hexec, Bool.false_eq_true, if_false, Bool.not_false, Bool.true_and]
    cases hc : rowsConvErr env.goEnv.rows with
    | some e => simp [hc]
    | none => by_cases hs : env.goEnv.streamTransportErr <;> simp [hc, hs]

/-- The trace of one cycle decomposes into the goroutine's events, the
select outcome, the close check and the sleep decision, in that order. -/
theorem runCycle_events {α : Type} (args : RunArgs) (st : HandlerState α) (env : CycleEnv α) :
    (runCycle args st env).events =
      (goBody env.goEnv st).1 ++ selectEvents env (goBody env.goEnv st).2.2
        ++ closeEvents env ++ sleepEvents args env.startNs env.nowNs := by
  rcases hg : goBody env.goEnv st with ⟨goEvts, st', chMsg⟩
  simp [runCycle, hg]

theorem runStep_fault_supervisor {α : Type} (args : RunArgs) (st : HandlerState α) (msg : String) :
    runStep args st (StepInput.fault ⟨recoverGid, msg⟩) =
      StepOutput.restart args st
        [Event.logWarn msg, Event.logInfo "sleep 10 seconds to be recovered",
         Event.sleepNs (10 * nsPerSec)] := by
  simp [runStep]

theorem restartArgs_eq {α : Type} (args : RunArgs) (st : HandlerState α) :
    restartArgs args st = args := by
  simp [restartArgs, runStep]

theorem argsAfterRestarts_eq {α : Type} (st : HandlerState α) (args : RunArgs) (n : Nat) :
    argsAfterRestarts st args n = args := by
  induction n generalizing args with
  | zero => rfl
  | succ n ih => rw [argsAfterRestarts, restartArgs_eq, ih]

theorem runStep_exit_iff {α : Type} (args : RunArgs) (st : HandlerState α)
    (inp : StepInput α) (evts : List (Event α)) (h : runStep args st inp = StepOutput.exit evts) :
    inp = StepInput.cancelled ∧ Event.wgDone ∈ evts := by
  cases inp with
  | cancelled =>
    refine ⟨rfl, ?_⟩
    simp only [runStep, StepOutput.exit.injEq] at h
    subst h
    simp
  | cycle env => simp [runStep] at h
  | fault f =>
    simp only [runStep] at h
    split at h <;> simp at h

/-- C1: for every run (one cycle of the supervisor loop), the exporter's
send capability is invoked exactly once when the run is clean — after
the stream fully drained with no execution, streaming or conversion
error — and not at all otherwise; in particular it is invoked at most
once per run, and an errored run produces no export. -/
theorem run_send_at_most_once {α : Type} (args : RunArgs) (st : HandlerState α)
    (env : CycleEnv α) :
    sendCount (runCycle args st env).events = (if runClean env.goEnv then 1 else 0) ∧
    sendCount (runCycle args st env).events ≤ 1 ∧
    sentBatches (runCycle args st env).events =
      (if runClean env.goEnv then [st.buf ++ deliveredEntities env.goEnv.rows] else []) := by
  refine ⟨?_, ?_, sentBatches_runCycle args st env⟩
  · rw [sendCount, sentBatches_runCycle]
    split <;> rfl
  · rw [sendCount, sentBatches_runCycle]
    split <;> simp

/-- C2 (evaluating the code at the failing input): a fault raised during
row conversion is raised inside the goroutine spawned at worker.go line
85, while the deferred recover of lines 63-70 lives on the supervisor
goroutine; recover never sees a panic from another goroutine, so the Go
runtime terminates the whole process — the crash barrier does not
intercept the fault and no cooldown restart happens. -/
theorem conversion_fault_kills_process (args : RunArgs) (st : HandlerState Nat) (msg : String) :
    runStep args st (StepInput.fault (conversionFault msg)) = StepOutput.processCrash ∧
    (conversionFault msg).gid ≠ recoverGid := by
  constructor
  · simp [runStep, conversionFault, recoverGid]
  · simp [conversionFault, recoverGid]

/-- C4 (evaluating the code at the failing input): even in a cycle whose
ExecuteScript call returns a non-nil result handle, Close is never
invoked, because the short variable declaration at worker.go line 87
shadows the outer resultSet of line 75 inside the goroutine, so the nil
check at line 112 always sees nil. -/
theorem close_never_invoked {α : Type} (args : RunArgs) (st : HandlerState α)
    (env : CycleEnv α) (_h : env.goEnv.handleObtained = true) :
    Event.closeHandle ∉ (runCycle args st env).events ∧ outerResultSetAfter env = none := by
  refine ⟨?_, rfl⟩
  rw [runCycle_events]
  simp only [List.mem_append, not_or]
  refine ⟨⟨⟨?_, ?_⟩, ?_⟩, ?_⟩
  · rw [goBody_char]
    by_cases hexec : env.goEnv.execErr
    · simp [hexec]
    · simp only [hexec, Bool.false_eq_true, if_false]
      cases hc : rowsConvErr env.goEnv.rows with
      | some e => simp
      | none => by_cases hs : env.goEnv.streamTransportErr <;> simp [hs]
  · unfold selectEvents
    cases env.finishedInTime with
    | true => cases (goBody env.goEnv st).2.2 <;> simp
    | false => simp
  · simp [closeEvents, outerResultSetAfter]
  · unfold sleepEvents
    split <;> simp

/-- Closed application of close_never_invoked at a concrete cycle in
which a result handle was obtained. -/
theorem close_never_invoked_witness :
    Event.closeHandle ∉ (runCycle ⟨"jvm", "px script", 10⟩ (⟨[]⟩ : HandlerState Nat)
      ⟨⟨false, true, [Except.ok [7]], false⟩, true, 0, 1 * nsPerSec, false⟩).events ∧
    @outerResultSetAfter Nat
      ⟨⟨false, true, [Except.ok [7]], false⟩, true, 0, 1 * nsPerSec, false⟩ = none :=
  close_never_invoked ⟨"jvm", "px script", 10⟩ ⟨[]⟩
    ⟨⟨false, true, [Except.ok [7]], false⟩, true, 0, 1 * nsPerSec, false⟩ rfl

/-- C5: in every cycle the execution is raced against a deadline of
(collection interval − 1 second); when the deadline arm fires first,
cancelFn is invoked on the derived context pixieCtx (not on the
enclosing ctx, whose state is unchanged), the timeout is logged, and the
cycle proceeds directly to the close check and the cadence-sleep
decision without waiting further on the execution channel. -/
theorem timeout_cancels_derived_scope {α : Type} (args : RunArgs) (st : HandlerState α)
    (env : CycleEnv α) (h : env.finishedInTime = false) :
    maxExecutionTime args = (args.collectIntervalSec - 1) * nsPerSec ∧
    (runCycle args st env).derivedCancelled = true ∧
    (runCycle args st env).outerCancelledAfter = env.outerCancelled ∧
    (runCycle args st env).events =
      (goBody env.goEnv st).1 ++ [Event.cancelDerived, Event.logWarn "execution out of time"]
        ++ closeEvents env ++ sleepEvents args env.startNs env.nowNs := by
  refine ⟨rfl, ?_, ?_, ?_⟩
  · rcases hg : goBody env.goEnv st with ⟨goEvts, st', chMsg⟩
    simp [runCycle, hg, h]
  · rcases hg : goBody env.goEnv st with ⟨goEvts, st', chMsg⟩
    simp [runCycle, hg]
  · rw [runCycle_events]
    simp [selectEvents, h]

/-- Closed application of timeout_cancels_derived_scope at a concrete
timed-out cycle. -/
theorem timeout_cancels_derived_scope_witness :
    maxExecutionTime ⟨"jvm", "px script", 10⟩ = (10 - 1) * nsPerSec ∧
    (runCycle ⟨"jvm", "px script", 10⟩ (⟨[]⟩ : HandlerState Nat)
      ⟨⟨false, true, [Except.ok [3]], true⟩, false, 0, 9 * nsPerSec, false⟩).derivedCancelled = true ∧
    (runCycle ⟨"jvm", "px script", 10⟩ (⟨[]⟩ : HandlerState Nat)
      ⟨⟨false, true, [Except.ok [3]], true⟩, false, 0, 9 * nsPerSec, false⟩).outerCancelledAfter = false ∧
    (runCycle ⟨"jvm", "px script", 10⟩ (⟨[]⟩ : HandlerState Nat)
      ⟨⟨false, true, [Except.ok [3]], true⟩, false, 0, 9 * nsPerSec, false⟩).events =
      (goBody (⟨false, true, [Except.ok [3]], true⟩ : GoEnv Nat) ⟨[]⟩).1
        ++ [Event.cancelDerived, Event.logWarn "execution out of time"]
        ++ closeEvents ⟨⟨false, true, [Except.ok [3]], true⟩, false, 0, 9 * nsPerSec, false⟩
        ++ sleepEvents ⟨"jvm", "px script", 10⟩ 0 (9 * nsPerSec) :=
  timeout_cancels_derived_scope ⟨"jvm", "px script", 10⟩ ⟨[]⟩
    ⟨⟨false, true, [Except.ok [3]], true⟩, false, 0, 9 * nsPerSec, false⟩ rfl

/-- C6: every cycle ends with the cadence decision of worker.go lines
115-120: with sleepTime the remaining time until (cycle start +
collection interval), the cycle sleeps exactly sleepTime when it is
positive — waking at the instant start + interval — and otherwise emits
no sleep at all, only the missed-cadence log line. -/
theorem cycle_sleep_until_cadence {α : Type} (args : RunArgs) (st : HandlerState α)
    (env : CycleEnv α) :
    (runCycle args st env).events =
      (goBody env.goEnv st).1 ++ selectEvents env (goBody env.goEnv st).2.2
        ++ closeEvents env ++ sleepEvents args env.startNs env.nowNs ∧
    (sleepEvents args env.startNs env.nowNs : List (Event α)) =
      (if 0 < env.startNs + collectInterval args - env.nowNs then
        [Event.sleepNs (env.startNs + collectInterval args - env.nowNs)]
       else
        [Event.logWarn "skipping the sleep"]) ∧
    env.nowNs + (env.startNs + collectInterval args - env.nowNs) =
      env.startNs + collectInterval args := by
  refine ⟨runCycle_events args st env, rfl, ?_⟩
  ring

/-- C8: the crash barrier's restart behavior. An intercepted fault
triggers the fixed 10-second cooldown and a restart of run with the
identical arguments (name, script, interval) and the same handler; the
restart count is unbounded — after any number n of intercepted faults
the arguments are still identical — and the only input on which the loop
returns (notifying the wait group) is the outer cancellation signal. -/
theorem crash_barrier_restart_identical {α : Type} (args : RunArgs) (st : HandlerState α)
    (msg : String) :
    runStep args st (StepInput.fault ⟨recoverGid, msg⟩) =
      StepOutput.restart args st
        [Event.logWarn msg, Event.logInfo "sleep 10 seconds to be recovered",
         Event.sleepNs (10 * nsPerSec)] ∧
    (∀ n : Nat, argsAfterRestarts st args n = args) ∧
    (∀ (inp : StepInput α) (evts : List (Event α)),
      runStep args st inp = StepOutput.exit evts →
        inp = StepInput.cancelled ∧ Event.wgDone ∈ evts) :=
  ⟨runStep_fault_supervisor args st msg, argsAfterRestarts_eq st args,
   fun inp evts h => runStep_exit_iff args st inp evts h⟩

/-- Closed application of crash_barrier_restart_identical, discharging
its exit hypothesis at the concrete cancelled input. -/
theorem crash_barrier_restart_identical_witness :
    (StepInput.cancelled : StepInput Nat) = StepInput.cancelled ∧
    Event.wgDone ∈ ([Event.logInfo "leaving worker", Event.wgDone] : List (Event Nat)) :=
  (crash_barrier_restart_identical ⟨"jvm", "px script", 10⟩ (⟨[]⟩ : HandlerState Nat) "boom").2.2
    StepInput.cancelled [Event.logInfo "leaving worker", Event.wgDone] rfl

/-- C3 as stated is false: the handler — and with it the accumulator's
buffer — is constructed once in worker.Metrics/Spans (worker.go lines
42-60) before run is entered, and the loop reuses it in every cycle. At
this concrete pair of cycles, the first run errors mid-stream after one
row reached the buffer; no fresh accumulator is made for the second,
clean run, whose single flush therefore contains the first run's row
alongside its own. -/
theorem accumulator_fresh_per_cycle_refuted :
    (runCycle ⟨"jvm", "px script", 10⟩ (⟨[]⟩ : HandlerState Nat)
      ⟨⟨false, true, [Except.ok [1], Except.error "unsupported data type for metric used_heap_size"],
        false⟩, true, 0, 1 * nsPerSec, false⟩).st.buf = [1] ∧
    sendCount (runCycle ⟨"jvm", "px script", 10⟩ (⟨[]⟩ : HandlerState Nat)
      ⟨⟨false, true, [Except.ok [1], Except.error "unsupported data type for metric used_heap_size"],
        false⟩, true, 0, 1 * nsPerSec, false⟩).events = 0 ∧
    sentBatches (runCycle ⟨"jvm", "px script", 10⟩
      (runCycle ⟨"jvm", "px script", 10⟩ (⟨[]⟩ : HandlerState Nat)
        ⟨⟨false, true, [Except.ok [1], Except.error "unsupported data type for metric used_heap_size"],
          false⟩, true, 0, 1 * nsPerSec, false⟩).st
      ⟨⟨false, true, [Except.ok [2]], false⟩, true, 10 * nsPerSec, 11 * nsPerSec, false⟩).events =
      [[1, 2]] := by
  refine ⟨?_, ?_, ?_⟩ <;> decide

/-- C3, amended: the accumulator is constructed once per worker, before
the loop starts, and is reused across cycles; its buffer is cleared only
by a flush, so a run that ends in a conversion or streaming error leaves
its delivered entities in the buffer and the next clean run flushes them
together with its own. -/
theorem accumulator_reused_across_runs {α : Type} (args : RunArgs) (st : HandlerState α)
    (env1 env2 : CycleEnv α)
    (h0 : env1.goEnv.execErr = false)
    (h1 : runClean env1.goEnv = false)
    (h2 : runClean env2.goEnv = true) :
    sendCount (runCycle args st env1).events = 0 ∧
    (runCycle args st env1).st.buf = st.buf ++ deliveredEntities env1.goEnv.rows ∧
    sentBatches (runCycle args (runCycle args st env1).st env2).events =
      [st.buf ++ deliveredEntities env1.goEnv.rows ++ deliveredEntities env2.goEnv.rows] := by
  have hbuf : (runCycle args st env1).st.buf = st.buf ++ deliveredEntities env1.goEnv.rows := by
    rw [runCycle_st, h1]
    simp [h0]
  refine ⟨?_, hbuf, ?_⟩
  · rw [sendCount, sentBatches_runCycle, h1]
    rfl
  · rw [sentBatches_runCycle, h2]
    rw [hbuf]
    simp

/-- Closed application of accumulator_reused_across_runs at the same
kind of scenario with different concrete data. -/
theorem accumulator_reused_across_runs_witness :
    sendCount (runCycle ⟨"http", "px script", 15⟩ (⟨[9]⟩ : HandlerState Nat)
      ⟨⟨false, true, [Except.ok [10], Except.error "bad row"], false⟩, true, 0, 2 * nsPerSec,
        false⟩).events = 0 ∧
    (runCycle ⟨"http", "px script", 15⟩ (⟨[9]⟩ : HandlerState Nat)
      ⟨⟨false, true, [Except.ok [10], Except.error "bad row"], false⟩, true, 0, 2 * nsPerSec,
        false⟩).st.buf = [9] ++ deliveredEntities [Except.ok [10], Except.error "bad row"] ∧
    sentBatches (runCycle ⟨"http", "px script", 15⟩
      (runCycle ⟨"http", "px script", 15⟩ (⟨[9]⟩ : HandlerState Nat)
        ⟨⟨false, true, [Except.ok [10], Except.error "bad row"], false⟩, true, 0, 2 * nsPerSec,
          false⟩).st
      ⟨⟨false, true, [Except.ok [11]], false⟩, true, 15 * nsPerSec, 16 * nsPerSec, false⟩).events =
      [[9] ++ deliveredEntities [Except.ok [10], Except.error "bad row"]
        ++ deliveredEntities ([Except.ok [11]] : List (RowOutcome Nat))] :=
  accumulator_reused_across_runs ⟨"http", "px script", 15⟩ ⟨[9]⟩
    ⟨⟨false, true, [Except.ok [10], Except.error "bad row"], false⟩, true, 0, 2 * nsPerSec, false⟩
    ⟨⟨false, true, [Except.ok [11]], false⟩, true, 15 * nsPerSec, 16 * nsPerSec, false⟩
    rfl (by decide) (by decide)

/-- C7 as stated is false in its discard part: at this concrete pair of
cycles, the first cycle times out (the deadline arm wins and the
cancelled stream reports an error) and indeed exports nothing, but the
row that reached the accumulator before cancellation is not discarded —
the next clean cycle's flush hands it to the exporter. -/
theorem timeout_rows_discarded_refuted :
    sendCount (runCycle ⟨"jvm", "px script", 10⟩ (⟨[]⟩ : HandlerState Nat)
      ⟨⟨false, true, [Except.ok [5]], true⟩, false, 0, 9 * nsPerSec, false⟩).events = 0 ∧
    Event.send [5] ∈ (runCycle ⟨"jvm", "px script", 10⟩
      (runCycle ⟨"jvm", "px script", 10⟩ (⟨[]⟩ : HandlerState Nat)
        ⟨⟨false, true, [Except.ok [5]], true⟩, false, 0, 9 * nsPerSec, false⟩).st
      ⟨⟨false, true, [], false⟩, true, 10 * nsPerSec, 11 * nsPerSec, false⟩).events := by
  refine ⟨?_, ?_⟩ <;> decide

/-- C7, amended: a cycle that times out — the deadline arm wins the
select and the cancellation of pixieCtx makes the in-flight Stream call
return an error — performs no export during that cycle; the rows already
delivered to the accumulator before cancellation are, however, retained
in its buffer rather than discarded (see the refutation above: the next
clean run flushes them). -/
theorem timeout_no_export_that_cycle {α : Type} (args : RunArgs) (st : HandlerState α)
    (env : CycleEnv α)
    (h0 : env.goEnv.execErr = false)
    (h1 : env.finishedInTime = false)
    (h2 : env.goEnv.streamTransportErr = true) :
    sendCount (runCycle args st env).events = 0 ∧
    Event.cancelDerived ∈ (runCycle args st env).events ∧
    (runCycle args st env).st.buf = st.buf ++ deliveredEntities env.goEnv.rows := by
  have hclean : runClean env.goEnv = false := by
    simp [runClean, h2]
  refine ⟨?_, ?_, ?_⟩
  · rw [sendCount, sentBatches_runCycle, hclean]
    rfl
  · rw [runCycle_events]
    simp [selectEvents, h1]
  · rw [runCycle_st, hclean]
    simp [h0]

/-- Closed application of timeout_no_export_that_cycle at a concrete
timed-out cycle with one delivered row. -/
theorem timeout_no_export_that_cycle_witness :
    sendCount (runCycle ⟨"spans", "px script", 10⟩ (⟨[]⟩ : HandlerState Nat)
      ⟨⟨false, true, [Except.ok [8]], true⟩, false, 0, 9 * nsPerSec, false⟩).events = 0 ∧
    Event.cancelDerived ∈ (runCycle ⟨"spans", "px script", 10⟩ (⟨[]⟩ : HandlerState Nat)
      ⟨⟨false, true, [Except.ok [8]], true⟩, false, 0, 9 * nsPerSec, false⟩).events ∧
    (runCycle ⟨"spans", "px script", 10⟩ (⟨[]⟩ : HandlerState Nat)
      ⟨⟨false, true, [Except.ok [8]], true⟩, false, 0, 9 * nsPerSec, false⟩).st.buf =
      [] ++ deliveredEntities ([Except.ok [8]] : List (RowOutcome Nat)) :=
  timeout_no_export_that_cycle ⟨"spans", "px script", 10⟩ ⟨[]⟩
    ⟨⟨false, true, [Except.ok [8]], true⟩, false, 0, 9 * nsPerSec, false⟩ rfl rfl rfl

end Worker

namespace Adapter

/-- A typed column value of the vizierpb value protocol, as the adapter
package sees it through types.Datum. Float64 values are modelled as
exact rationals; the widening float64(int64Value) of jvm.go line 139 is
modelled as the exact cast Int → ℚ. -/
inductive Datum where
  | int64Val (v : Int)
  | float64Val (v : ℚ)
  | time64NSVal (ns : Int)
  | stringVal (s : String)
  | boolVal (b : Bool)
deriving DecidableEq

/-- A Result Row: an ordered mapping from column name to typed value. -/
abbrev Record := List (String × Datum)

/-- r.GetDatum(name): the datum of the named column, or none for the nil
datum Go returns when the column does not exist. -/
def getDatum (r : Record) (col : String) : Option Datum :=
  (r.find? (fun p => p.1 == col)).map Prod.snd

/-- Outcome of running a piece of Go code: a value, a returned error, or
a run-time fault (a panic, from a failed type assertion or a method call
on a nil interface). -/
inductive GoResult (α : Type) where
  | ok (val : α)
  | err (msg : String)
  | fault
deriving DecidableEq

/-- jvm.go lines 69-74. -/
structure MetricDef where
  metricName : String
  description : String
  unit : String
  attributes : List (String × String)
deriving DecidableEq

/-- jvm.go lines 61-67. The Go map's iteration order is unspecified; the
model iterates the entries in their source order. The attribute values
are string literals, so the map-of-interface values are modelled as
strings directly. -/
def metricMapping : List (String × MetricDef) :=
  [("young_gc_time", ⟨"runtime.jvm.gc.collection", "", "ms", [("gc", "young")]⟩),
   ("full_gc_time", ⟨"runtime.jvm.gc.collection", "", "ms", [("gc", "full")]⟩),
   ("used_heap_size", ⟨"runtime.jvm.memory.area", "", "bytes", [("type", "used"), ("area", "heap")]⟩),
   ("total_heap_size", ⟨"runtime.jvm.memory.area", "", "bytes", [("type", "total"), ("area", "heap")]⟩),
   ("max_heap_size", ⟨"runtime.jvm.memory.area", "", "bytes", [("type", "max"), ("area", "heap")]⟩)]

/-- jvm.go lines 148-157: fmt.Sprintf of a string value is the string
itself. -/
def transformAttributes (attrs : List (String × String)) : List (String × String) :=
  attrs.map (fun p => (p.1, p.2))

/-- One OpenTelemetry NumberDataPoint as jvm.go builds it (lines
118-124): TimeUnixNano, the AsDouble value, and the labels. -/
structure NumberDataPoint where
  timeUnixNano : Nat
  asDouble : ℚ
  labels : List (String × String)
deriving DecidableEq

/-- One OpenTelemetry Metric with gauge data (jvm.go lines 111-128). -/
structure Metric where
  name : String
  description : String
  unit : String
  gaugeDataPoints : List NumberDataPoint
deriving DecidableEq

/-- One InstrumentationLibraryMetrics entry (jvm.go lines 109-129); the
shared instrumentation-library tag set from the adapter package's common
file is not in the sources here and is irrelevant to the claims, so it
is omitted from the model. -/
structure InstrumentationLibraryMetrics where
  metrics : List Metric
deriving DecidableEq

/-- One resource-scoped telemetry entity; ρ is the (opaque) resource
type produced by the Resource Context helper. -/
structure ResourceMetrics (ρ : Type) where
  resource : ρ
  instrumentationLibraryMetrics : List InstrumentationLibraryMetrics
deriving DecidableEq

/-- Go's uint64 conversion of an int64 UnixNano value: reduction modulo
2^64 (jvm.go line 120). -/
def uint64ofInt (v : Int) : Nat := (v % (2 ^ 64 : Int)).toNat

/-- jvm.go lines 135-146. A nil valueDatum — the column is absent — makes
the valueDatum.Type() call at line 138 fault; an INT64 value is widened
to a double; a FLOAT64 value is taken as is; any other type yields the
typed error of line 143. -/
def getValueFromJVMMetric (r : Record) (metricName : String) : GoResult ℚ :=
  match getDatum r metricName with
  | none => GoResult.fault
  | some (Datum.int64Val v) => GoResult.ok (v : ℚ)
  | some (Datum.float64Val q) => GoResult.ok q
  | some _ => GoResult.err ("unsupported data type for metric " ++ metricName)

/-- The InstrumentationLibraryMetrics entry jvm.go lines 109-129 build
for one mapped metric: one Metric carrying one gauge data point. -/
def mkILM (d : MetricDef) (tsNano : Nat) (v : ℚ) : InstrumentationLibraryMetrics :=
  ⟨[⟨d.metricName, d.description, d.unit, [⟨tsNano, v, transformAttributes d.attributes⟩]⟩]⟩

/-- The loop of jvm.go lines 104-131: one entry per mapping element, in
iteration order, stopping at the first column whose value cannot be
obtained. -/
def buildILMs (r : Record) (tsNano : Nat) :
    List (String × MetricDef) → GoResult (List InstrumentationLibraryMetrics)
  | [] => GoResult.ok []
  | (metricName, d) :: rest =>
    match getValueFromJVMMetric r metricName with
    | GoResult.fault => GoResult.fault
    | GoResult.err m => GoResult.err m
    | GoResult.ok v =>
      match buildILMs r tsNano rest with
      | GoResult.fault => GoResult.fault
      | GoResult.err m => GoResult.err m
      | GoResult.ok tl => GoResult.ok (mkILM d tsNano v :: tl)

/-- Modelled from the spec: createArrayOfMetrics lives in the adapter
package's shared file, which is absent from the sources here; per the
spec the converter returns a sequence of resource-scoped telemetry
entities, one per resource derived by the Resource Context helper, each
carrying the converted data points. -/
def createArrayOfMetrics {ρ : Type} (resources : List ρ)
    (ils : List InstrumentationLibraryMetrics) : List (ResourceMetrics ρ) :=
  resources.map (fun res => ⟨res, ils⟩)

/-- jvm.Adapt (jvm.go lines 99-133). Line 100 reads
r.GetDatum("time_").(*types.Time64NSValue).Value(): an unchecked type
assertion, so a missing time_ column (nil datum) or a time_ datum of any
other type faults rather than returning an error. The Resource Context
helper rh.createResources is repository code absent from the sources
here and is kept abstract as a function from the row to its resources. -/
def Adapt {ρ : Type} (createResources : Record → List ρ) (r : Record) :
    GoResult (List (ResourceMetrics ρ)) :=
  match getDatum r "time_" with
  | some (Datum.time64NSVal ts) =>
    match buildILMs r (uint64ofInt ts) metricMapping with
    | GoResult.fault => GoResult.fault
    | GoResult.err m => GoResult.err m
    | GoResult.ok ils => GoResult.ok (createArrayOfMetrics (createResources r) ils)
  | _ => GoResult.fault

/-- The three observable kinds of outcome of running Adapt. -/
inductive OutcomeKind where
  | faulted
  | typedError
  | succeeded
deriving DecidableEq

/-- The kind of a Go outcome. -/
def kindOfResult {α : Type} : GoResult α → OutcomeKind
  | GoResult.ok _ => OutcomeKind.succeeded
  | GoResult.err _ => OutcomeKind.typedError
  | GoResult.fault => OutcomeKind.faulted

/-- Spec-side classification of one mapped column, following the amended
claim's words: absent column — fault; INT64 or FLOAT64 — usable; any
other present type — typed error. -/
def colKind (r : Record) (metricName : String) : OutcomeKind :=
  match getDatum r metricName with
  | none => OutcomeKind.faulted
  | some (Datum.int64Val _) => OutcomeKind.succeeded
  | some (Datum.float64Val _) => OutcomeKind.succeeded
  | some _ => OutcomeKind.typedError

/-- Spec-side classification of the mapped columns in iteration order:
the first non-usable column decides. -/
def colsKind (r : Record) : List (String × MetricDef) → OutcomeKind
  | [] => OutcomeKind.succeeded
  | (n, _) :: rest =>
    match colKind r n with
    | OutcomeKind.succeeded => colsKind r rest
    | k => k

/-- Spec-side classification of a whole row, following the amended
claim's words: a time_ column that is absent or not a nanosecond
timestamp faults; otherwise the mapped columns decide. -/
def adaptKindSpec (r : Record) : OutcomeKind :=
  match getDatum r "time_" with
  | some (Datum.time64NSVal _) => colsKind r metricMapping
  | _ => OutcomeKind.faulted

theorem kindOf_getValue (r : Record) (n : String) :
    kindOfResult (getValueFromJVMMetric r n) = colKind r n := by
  unfold getValueFromJVMMetric colKind
  cases hg : getDatum r n with
  | none => rfl
  | some d => cases d <;> rfl

theorem kindOf_buildILMs (r : Record) (ts : Nat) (l : List (String × MetricDef)) :
    kindOfResult (buildILMs r ts l) = colsKind r l := by
  induction l with
  | nil => rfl
  | cons p rest ih =>
    rcases p with ⟨n, d⟩
    unfold buildILMs colsKind
    rw [← kindOf_getValue r n]
    cases hv : getValueFromJVMMetric r n with
    | fault => rfl
    | err m => rfl
    | ok v =>
      simp only [kindOfResult]
      rw [← ih]
      cases hb : buildILMs r ts rest <;> rfl

theorem buildILMs_ok_length (r : Record) (ts : Nat) (l : List (String × MetricDef))
    (ils : List InstrumentationLibraryMetrics) (h : buildILMs r ts l = GoResult.ok ils) :
    ils.length = l.length := by
  induction l generalizing ils with
  | nil =>
    unfold buildILMs at h
    cases h
    rfl
  | cons p rest ih =>
    rcases p with ⟨n, d⟩
    unfold buildILMs at h
    cases hv : getValueFromJVMMetric r n <;> rw [hv] at h
    · cases hb : buildILMs r ts rest <;> rw [hb] at h <;> cases h
      simp [ih _ hb]
    · cases h
    · cases h

/-- The time_ column's value when it is a nanosecond timestamp. -/
def timeValue (r : Record) : Option Int :=
  match getDatum r "time_" with
  | some (Datum.time64NSVal v) => some v
  | _ => none

/-- A mapped column's value as a double, when it is INT64 or FLOAT64. -/
def colDouble (r : Record) (n : String) : Option ℚ :=
  match getDatum r n with
  | some (Datum.int64Val v) => some (v : ℚ)
  | some (Datum.float64Val q) => some q
  | _ => none

/-- The double value of a usable mapped column (0 when unusable). -/
def colD (r : Record) (n : String) : ℚ := (colDouble r n).getD 0

/-- A record is good for the jvm converter when time_ holds a
nonnegative int64 nanosecond timestamp and every mapped column holds an
INT64 or FLOAT64 value. -/
def rowGood (r : Record) : Bool :=
  (match timeValue r with
   | some v => decide (0 ≤ v) && decide (v < 2 ^ 63)
   | none => false)
  && metricMapping.all (fun p => (colDouble r p.1).isSome)

theorem timeValue_some (r : Record) (ts : Int) (h : timeValue r = some ts) :
    getDatum r "time_" = some (Datum.time64NSVal ts) := by
  unfold timeValue at h
  cases hg : getDatum r "time_" <;> rw [hg] at h
  · cases h
  · rename_i d
    cases d <;> simp_all

theorem getValue_of_colDouble (r : Record) (n : String)
    (h : (colDouble r n).isSome = true) :
    getValueFromJVMMetric r n = GoResult.ok (colD r n) := by
  unfold colDouble at h
  unfold getValueFromJVMMetric colD colDouble
  cases hg : getDatum r n <;> rw [hg] at h
  · cases h
  · rename_i d
    cases d <;> simp_all

theorem buildILMs_all_ok (r : Record) (ts : Nat) (l : List (String × MetricDef))
    (h : ∀ p ∈ l, (colDouble r p.1).isSome = true) :
    buildILMs r ts l = GoResult.ok (l.map (fun p => mkILM p.2 ts (colD r p.1))) := by
  induction l with
  | nil => rfl
  | cons p rest ih =>
    rcases p with ⟨n, d⟩
    unfold buildILMs
    rw [getValue_of_colDouble r n (h ⟨n, d⟩ (List.mem_cons_self _ _))]
    rw [ih (fun q hq => h q (List.mem_cons_of_mem _ hq))]
    rfl

/-- Reduction of Adapt once time_ is known to hold a timestamp. -/
theorem Adapt_time_eq {ρ : Type} (cr : Record → List ρ) (r : Record) (ts : Int)
    (hg : getDatum r "time_" = some (Datum.time64NSVal ts)) :
    Adapt cr r =
      (match buildILMs r (uint64ofInt ts) metricMapping with
       | GoResult.fault => GoResult.fault
       | GoResult.err m => GoResult.err m
       | GoResult.ok ils => GoResult.ok (createArrayOfMetrics (cr r) ils)) := by
  unfold Adapt
  rw [hg]

/-- Reduction of the spec-side classifier once time_ is known to hold a
timestamp. -/
theorem adaptKindSpec_time_eq (r : Record) (ts : Int)
    (hg : getDatum r "time_" = some (Datum.time64NSVal ts)) :
    adaptKindSpec r = colsKind r metricMapping := by
  unfold adaptKindSpec
  rw [hg]

/-- C9 as stated is false: a row whose time_ column is absent, and a row
whose time_ column is present but not a nanosecond timestamp, make
Adapt fault (the unchecked type assertion of jvm.go line 100 panics)
rather than return a typed error. -/
theorem adapt_missing_time_faults :
    @Adapt Unit (fun _ => [()]) [("young_gc_time", Datum.int64Val 4)] = GoResult.fault ∧
    kindOfResult (@Adapt Unit (fun _ => [()]) [("young_gc_time", Datum.int64Val 4)]) ≠
      OutcomeKind.typedError ∧
    @Adapt Unit (fun _ => [()])
      [("time_", Datum.stringVal "now"), ("young_gc_time", Datum.int64Val 4)] =
      GoResult.fault := by
  refine ⟨?_, ?_, ?_⟩ <;> decide

/-- C9, amended: Adapt returns a typed error exactly when time_ is a
nanosecond timestamp and the first unusable mapped column (in iteration
order) is present with a type other than INT64 and FLOAT64; it faults
when time_ is absent or of another type, or when the first unusable
mapped column is absent; otherwise it succeeds, returning one
resource-scoped entity per resource derived by the helper. -/
theorem adapt_outcome_matches_spec {ρ : Type} (cr : Record → List ρ) (r : Record) :
    kindOfResult (Adapt cr r) = adaptKindSpec r ∧
    (adaptKindSpec r = OutcomeKind.succeeded →
      ∃ out, Adapt cr r = GoResult.ok out ∧ out.length = (cr r).length) := by
  constructor
  · cases hg : getDatum r "time_" with
    | none => unfold Adapt adaptKindSpec; rw [hg]; rfl
    | some d =>
      cases d with
      | time64NSVal ts =>
        rw [Adapt_time_eq cr r ts hg, adaptKindSpec_time_eq r ts hg,
          ← kindOf_buildILMs r (uint64ofInt ts) metricMapping]
        cases buildILMs r (uint64ofInt ts) metricMapping <;> rfl
      | int64Val v => unfold Adapt adaptKindSpec; rw [hg]; rfl
      | float64Val v => unfold Adapt adaptKindSpec; rw [hg]; rfl
      | stringVal s => unfold Adapt adaptKindSpec; rw [hg]; rfl
      | boolVal b => unfold Adapt adaptKindSpec; rw [hg]; rfl
  · intro hs
    rcases hg : getDatum r "time_" with _ | d
    · unfold adaptKindSpec at hs
      rw [hg] at hs
      cases hs
    · cases d with
      | time64NSVal ts =>
        rw [adaptKindSpec_time_eq r ts hg] at hs
        have hk := kindOf_buildILMs r (uint64ofInt ts) metricMapping
        rw [hs] at hk
        cases hb : buildILMs r (uint64ofInt ts) metricMapping <;> rw [hb] at hk
        case ok ils =>
          refine ⟨createArrayOfMetrics (cr r) ils, ?_, ?_⟩
          · rw [Adapt_time_eq cr r ts hg, hb]
          · simp [createArrayOfMetrics]
        case err m => cases hk
        case fault => cases hk
      | int64Val v => unfold adaptKindSpec at hs; rw [hg] at hs; cases hs
      | float64Val v => unfold adaptKindSpec at hs; rw [hg] at hs; cases hs
      | stringVal s => unfold adaptKindSpec at hs; rw [hg] at hs; cases hs
      | boolVal b => unfold adaptKindSpec at hs; rw [hg] at hs; cases hs

/-- Closed application of adapt_outcome_matches_spec, discharging its
success hypothesis at a concrete well-typed row. -/
theorem adapt_outcome_matches_spec_witness :
    ∃ out, @Adapt Nat (fun _ => [0])
      [("time_", Datum.time64NSVal 1000), ("young_gc_time", Datum.int64Val 1),
       ("full_gc_time", Datum.int64Val 2), ("used_heap_size", Datum.int64Val 3),
       ("total_heap_size", Datum.int64Val 4), ("max_heap_size", Datum.int64Val 5)] =
      GoResult.ok out ∧ out.length = 1 :=
  (adapt_outcome_matches_spec (fun _ => [0])
    [("time_", Datum.time64NSVal 1000), ("young_gc_time", Datum.int64Val 1),
     ("full_gc_time", Datum.int64Val 2), ("used_heap_size", Datum.int64Val 3),
     ("total_heap_size", Datum.int64Val 4), ("max_heap_size", Datum.int64Val 5)]).2
    (by decide)

/-- C10: on a record whose time_ is a nonnegative int64 nanosecond
timestamp and whose five mapped columns are INT64 or FLOAT64, Adapt
succeeds, and every resource entity carries exactly one
instrumentation-library entry per mapped metric — five in all — whose
single metric holds a single gauge data point stamped with the row's
time_ value and valued at the column's value as a double (INT64 widened
exactly). -/
theorem adapt_valid_row_gauge_shape {ρ : Type} (cr : Record → List ρ) (r : Record)
    (h : rowGood r = true) :
    Adapt cr r = GoResult.ok ((cr r).map (fun res =>
      ⟨res, metricMapping.map
        (fun p => mkILM p.2 ((timeValue r).getD 0).toNat (colD r p.1))⟩)) ∧
    metricMapping.length = 5 ∧
    (∀ (d : MetricDef) (t : Nat) (v : ℚ),
      mkILM d t v =
        ⟨[⟨d.metricName, d.description, d.unit,
           [⟨t, v, transformAttributes d.attributes⟩]⟩]⟩) := by
  refine ⟨?_, rfl, fun d t v => rfl⟩
  unfold rowGood at h
  cases htv : timeValue r <;> rw [htv] at h
  · cases h
  · rename_i ts
    simp only [Bool.and_eq_true, decide_eq_true_eq, List.all_eq_true] at h
    obtain ⟨⟨h0, h1⟩, hall⟩ := h
    have hgd := timeValue_some r ts htv
    have hu : uint64ofInt ts = ts.toNat := by
      unfold uint64ofInt
      rw [Int.emod_eq_of_lt h0 (lt_trans h1 (by norm_num))]
    rw [Adapt_time_eq cr r ts hgd, hu, buildILMs_all_ok r ts.toNat metricMapping hall]
    simp [createArrayOfMetrics, htv]

/-- Closed application of adapt_valid_row_gauge_shape at a concrete
well-typed row with INT64 and FLOAT64 columns. -/
theorem adapt_valid_row_gauge_shape_witness :
    @Adapt Nat (fun _ => [0])
        [("time_", Datum.time64NSVal 1700000000000000000),
         ("young_gc_time", Datum.int64Val 12), ("full_gc_time", Datum.int64Val 34),
         ("used_heap_size", Datum.float64Val 1000), ("total_heap_size", Datum.int64Val 2000),
         ("max_heap_size", Datum.int64Val 4000)] =
      GoResult.ok (((fun _ => [0]) [("time_", Datum.time64NSVal 1700000000000000000),
         ("young_gc_time", Datum.int64Val 12), ("full_gc_time", Datum.int64Val 34),
         ("used_heap_size", Datum.float64Val 1000), ("total_heap_size", Datum.int64Val 2000),
         ("max_heap_size", Datum.int64Val 4000)]).map (fun res =>
        ⟨res, metricMapping.map
          (fun p => mkILM p.2
            ((timeValue [("time_", Datum.time64NSVal 1700000000000000000),
              ("young_gc_time", Datum.int64Val 12), ("full_gc_time", Datum.int64Val 34),
              ("used_heap_size", Datum.float64Val 1000), ("total_heap_size", Datum.int64Val 2000),
              ("max_heap_size", Datum.int64Val 4000)]).getD 0).toNat
            (colD [("time_", Datum.time64NSVal 1700000000000000000),
              ("young_gc_time", Datum.int64Val 12), ("full_gc_time", Datum.int64Val 34),
              ("used_heap_size", Datum.float64Val 1000), ("total_heap_size", Datum.int64Val 2000),
              ("max_heap_size", Datum.int64Val 4000)] p.1))⟩)) :=
  (adapt_valid_row_gauge_shape (fun _ => [0])
    [("time_", Datum.time64NSVal 1700000000000000000),
     ("young_gc_time", Datum.int64Val 12), ("full_gc_time", Datum.int64Val 34),
     ("used_heap_size", Datum.float64Val 1000), ("total_heap_size", Datum.int64Val 2000),
     ("max_heap_size", Datum.int64Val 4000)] (by decide)).1

end Adapter
